import Mathlib

/-!
Verification of the avatar-acceptability policy engine and its collaborators.

Shallow embedding of the Python sources under `userHeadOcr/`:
  * `im_ocr/head_ocr.py`       — fail-fast avatar checker (`HeadOCR`)
  * `im_ocr/head_ocr_util.py`  — accumulate-mode avatar checker (`HeadOCR`)
  * `im_ocr/avatar_detector.py`— strict/loose avatar checker (`AvatarDetector`)
  * `demo/backend.py`          — pose check with caller-supplied limits
  * `demo/jsonline.py`         — JSONL record store (`JsonLineDB`)

Numbers reported by the face-analysis provider (angles, probabilities,
completeness scores, box sizes) are modelled as rationals; enum-like fields
(mask type, glass type, ...) as integers.  The distinct Python format strings
used for rejection messages are modelled by the constructors of an inductive
message type carrying the format arguments.  Strings are processed on their
character lists with structural functions so that every definition evaluates
inside the kernel.  `urllib` percent-decoding is modelled at the character
level for the ASCII range (each `%XX` escape maps to the character with code
`XX`), which is exact for the ASCII URLs these claims concern.
`os.path.isabs` is modelled with POSIX semantics (leading slash).
-/

namespace UserHeadOcr

/-- Whether the first list is an initial segment of the second
(`str.startswith` on character lists). -/
def leadsWith : List Char → List Char → Bool
  | [], _ => true
  | _ :: _, [] => false
  | a :: as, b :: bs => a = b && leadsWith as bs

/-- Python `needle in haystack` substring test (`str.__contains__`). -/
def containsSub (needle : List Char) : List Char → Bool
  | [] => leadsWith needle []
  | c :: rest => leadsWith needle (c :: rest) || containsSub needle rest

/-- Substring test on `String`. -/
def strContains (hay needle : String) : Bool :=
  containsSub needle.data hay.data

/-- Python `path.startswith(("http://", "https://"))` as used by
`_is_relative_path` in all variants. -/
def isHttpUrl (s : String) : Bool :=
  leadsWith "http://".data s.data || leadsWith "https://".data s.data

/-- `os.path.isabs` on POSIX: the path begins with a slash. -/
def isAbsPath (s : String) : Bool :=
  leadsWith "/".data s.data

/-- `_is_relative_path` (identical in head_ocr.py, head_ocr_util.py,
avatar_detector.py, backend.py): not an http(s) URL and not absolute. -/
def isRelativePath (s : String) : Bool :=
  if isHttpUrl s then false
  else if isAbsPath s then false
  else true

/-- `_is_baidu_image_url` (identical in all variants):
`'image.baidu.com' in url or ('baidu.com' in url and 'objurl' in url)`. -/
def isBaiduImageUrl (s : String) : Bool :=
  strContains s "image.baidu.com" || (strContains s "baidu.com" && strContains s "objurl")

/-- `ImageSource` enum of head_ocr.py / head_ocr_util.py / backend.py. -/
inductive ImageSource where
  | local_file
  | direct_url
  | baidu_url
deriving DecidableEq, Repr

/-- `HeadOCR._get_image_type` (head_ocr.py, head_ocr_util.py, backend.py):
relative path or absolute path → local file; else baidu signature → baidu url;
else direct url. -/
def getImageType (s : String) : ImageSource :=
  if isRelativePath s || isAbsPath s then .local_file
  else if isBaiduImageUrl s then .baidu_url
  else .direct_url

/-- Return values of `AvatarDetector._get_image_type` (avatar_detector.py),
which uses string literals rather than the enum. -/
inductive AvImageType where
  | relative_path
  | direct_url
  | baidu_url
deriving DecidableEq, Repr

/-- `AvatarDetector._get_image_type`: note that, unlike the head_ocr variant,
absolute paths are NOT routed to the local-file branch. -/
def avGetImageType (s : String) : AvImageType :=
  if isRelativePath s then .relative_path
  else if isBaiduImageUrl s then .baidu_url
  else .direct_url

/-! ### URL extraction (`_extract_image_url`, identical in all variants)

The function uses `urllib.parse.urlparse`, `urllib.parse.parse_qs` and
`urllib.parse.unquote`; those library routines are embedded below. -/

/-- Hexadecimal digit value, as accepted by `urllib.parse.unquote`. -/
def hexVal (c : Char) : Option Nat :=
  if '0' ≤ c ∧ c ≤ '9' then some (c.toNat - 48)
  else if 'a' ≤ c ∧ c ≤ 'f' then some (c.toNat - 87)
  else if 'A' ≤ c ∧ c ≤ 'F' then some (c.toNat - 55)
  else none

/-- `urllib.parse.unquote` on a character list: each `%XX` escape with two hex
digits becomes the character with code `XX`; malformed escapes are left
untouched (ASCII-level model of the byte decoding). -/
def percentDecode : List Char → List Char
  | [] => []
  | '%' :: c1 :: c2 :: rest =>
    match hexVal c1, hexVal c2 with
    | some h1, some h2 => Char.ofNat (16 * h1 + h2) :: percentDecode rest
    | _, _ => '%' :: percentDecode (c1 :: c2 :: rest)
  | c :: rest => c :: percentDecode rest

/-- `urllib.parse.unquote` on strings. -/
def percentDecodeStr (s : String) : String :=
  ⟨percentDecode s.data⟩

/-- `unquote_plus` as used inside `parse_qs`: plus signs become spaces
(`str.replace('+', ' ')`), then percent escapes decode. -/
def unquotePlus (cs : List Char) : List Char :=
  percentDecode (cs.map fun c => if c = '+' then ' ' else c)

/-- Characters strictly before the first occurrence of `sep` (the whole list
when `sep` does not occur). -/
def beforeChar (sep : Char) : List Char → List Char
  | [] => []
  | c :: rest => if c = sep then [] else c :: beforeChar sep rest

/-- Characters strictly after the first occurrence of `sep`, when it occurs
(`str.split(sep, 1)[1]`). -/
def afterChar (sep : Char) : List Char → Option (List Char)
  | [] => none
  | c :: rest => if c = sep then some rest else afterChar sep rest

/-- `str.split(sep)` for a one-character separator (as `parse_qsl` splits the
query string on every `&`). -/
def splitOnChar (sep : Char) : List Char → List (List Char)
  | [] => [[]]
  | c :: rest =>
    if c = sep then [] :: splitOnChar sep rest
    else
      match splitOnChar sep rest with
      | [] => [[c]]
      | h :: t => (c :: h) :: t

/-- Query-string component per `urllib.parse.urlsplit`: drop the fragment
(everything from the first `#`), then take everything after the first `?`
(empty when there is none). -/
def queryOf (cs : List Char) : List Char :=
  (afterChar '?' (beforeChar '#' cs)).getD []

/-- `urllib.parse.parse_qsl` with default arguments: split on `&`, split each
pair at the first `=` (pairs without `=` or with an empty value are dropped),
and `unquote_plus` both name and value. -/
def parseQsl (qs : List Char) : List (List Char × List Char) :=
  (splitOnChar '&' qs).filterMap fun pair =>
    match afterChar '=' pair with
    | none => none
    | some v =>
      if v = [] then none
      else some (unquotePlus (beforeChar '=' pair), unquotePlus v)

/-- `parse_qs(query)[key][0]` when present: the first value recorded for the
key, `none` when `key not in params`. -/
def getParamFirst (qs : List Char) (key : String) : Option (List Char) :=
  (((parseQsl qs).filter fun p => decide (p.1 = key.data)).head?).map (·.2)

/-- Guard of the baidu branch of `_extract_image_url`. -/
def baiduMarker (url : String) : Bool :=
  strContains url "image.baidu.com" || strContains url "baidu.com"

/-- Guard of the google branch of `_extract_image_url`. -/
def googleMarker (url : String) : Bool :=
  strContains url "google.com" || strContains url "googleusercontent.com"

/-- `_extract_image_url` (identical in head_ocr.py, head_ocr_util.py,
avatar_detector.py, backend.py): baidu-marked URLs yield the extra-unquoted
`objurl` parameter when present, google-marked URLs yield the `imgurl`
parameter when present, otherwise the original URL is returned unchanged. -/
def extractImageUrl (url : String) : String :=
  let googleBranch :=
    if googleMarker url then
      match getParamFirst (queryOf url.data) "imgurl" with
      | some v => (⟨v⟩ : String)
      | none => url
    else url
  if baiduMarker url then
    match getParamFirst (queryOf url.data) "objurl" with
    | some v => (⟨percentDecode v⟩ : String)
    | none => googleBranch
  else googleBranch

/-! ### Data model

Shapes of the provider response fields consumed after
`self.client.DetectFaceAttributes(req)` returns.  Attribute blocks the
provider may omit are `Option`s; Python `if x:` guards on such objects become
`Option` matches. -/

/-- `FaceRect` (fields `X`, `Y`, `Width`, `Height`). -/
structure FaceRect where
  x : ℚ
  y : ℚ
  width : ℚ
  height : ℚ
deriving DecidableEq, Repr

/-- `HeadPose` (fields `Pitch`, `Yaw`, `Roll`). -/
structure HeadPose where
  pitch : ℚ
  yaw : ℚ
  roll : ℚ
deriving DecidableEq, Repr

/-- `Mask` attribute (fields `Type`, `Probability`). -/
structure Mask where
  type : ℤ
  probability : ℚ
deriving DecidableEq, Repr

/-- `Eye.EyeOpen` attribute (fields `Type`, `Probability`). -/
structure EyeOpen where
  type : ℤ
  probability : ℚ
deriving DecidableEq, Repr

/-- `Eye.Glass` attribute (fields `Type`, `Probability`). -/
structure Glass where
  type : ℤ
  probability : ℚ
deriving DecidableEq, Repr

/-- `Eye` attribute block; `EyeOpen`/`Glass` sub-blocks may be absent. -/
structure Eye where
  eyeOpen : Option EyeOpen
  glass : Option Glass
deriving DecidableEq, Repr

/-- `Hat.Style` attribute (field `Type`; 0 = no hat). -/
structure HatStyle where
  type : ℤ
  probability : ℚ
deriving DecidableEq, Repr

/-- `Hat` attribute block. -/
structure Hat where
  style : Option HatStyle
deriving DecidableEq, Repr

/-- `FaceQualityInfo.Completeness` (fields `Eye`, `Mouth`, `Nose`). -/
structure Completeness where
  eye : ℚ
  mouth : ℚ
  nose : ℚ
deriving DecidableEq, Repr

/-- `FaceQualityInfo`. -/
structure Quality where
  completeness : Option Completeness
deriving DecidableEq, Repr

/-- `FaceDetailAttributesInfo`: the attribute blocks the checkers read. -/
structure FaceAttrs where
  headPose : Option HeadPose
  mask : Option Mask
  eye : Option Eye
  hat : Option Hat
deriving DecidableEq, Repr

/-- One entry of `resp.FaceDetailInfos`. -/
structure FaceInfo where
  rect : Option FaceRect
  attrs : Option FaceAttrs
  quality : Option Quality
deriving DecidableEq, Repr

/-- `attrs.HeadPose if attrs else None`. -/
def getPose (f : FaceInfo) : Option HeadPose :=
  f.attrs.bind (·.headPose)

/-- `attrs.Mask if attrs else None`. -/
def getMask (f : FaceInfo) : Option Mask :=
  f.attrs.bind (·.mask)

/-- `attrs.Eye if attrs else None`. -/
def getEye (f : FaceInfo) : Option Eye :=
  f.attrs.bind (·.eye)

/-- `attrs.Eye.Glass if attrs and attrs.Eye else None` (head_ocr_util.py). -/
def getGlass (f : FaceInfo) : Option Glass :=
  (f.attrs.bind (·.eye)).bind (·.glass)

/-- `attrs.Hat if attrs else None` (avatar_detector.py). -/
def getHat (f : FaceInfo) : Option Hat :=
  f.attrs.bind (·.hat)

/-! ### Rejection messages

One constructor per distinct Python format string, carrying the format
arguments that the string interpolates. -/

/-- The pose axis a pose-rejection message names. -/
inductive Axis where
  | pitch
  | yaw
  | roll
deriving DecidableEq, Repr

/-- A region named by the occlusion check of head_ocr_util.py. -/
inductive Region where
  | eye
  | mouth
  | nose
deriving DecidableEq, Repr

/-- Messages produced by the checkers; each constructor is one Python format
string together with its interpolated arguments. -/
inductive Msg where
  /-- "图片中未检测到人脸" (no face detected). -/
  | noFace
  /-- "检测到多张人脸，请上传单人头像" (head_ocr.py, avatar_detector.py). -/
  | multiFaceSimple
  /-- "图片中检测到 {n} 张人脸，只允许包含一张人脸" (head_ocr_util.py). -/
  | multiFaceCount (n : ℕ)
  /-- "人脸框不合理" (face box unreasonable). -/
  | badFaceRect
  /-- "检测失败: {message}" (the enclosing `except` handler). -/
  | detectFailed
  /-- "人脸{上下偏移|左右偏移|旋转角度}过大: {v}度（正常范围: {lo}~{hi}度）". -/
  | poseOut (a : Axis) (v lo hi : ℚ)
  /-- "口罩佩戴不正确: {cat}" (head_ocr.py, backend.py, loose avatar_detector). -/
  | maskIncorrect (cat : String)
  /-- "检测到佩戴口罩: {cat}" (head_ocr_util.py). -/
  | maskDetected (cat : String)
  /-- "检测到佩戴口罩（严格模式下禁止佩戴口罩）" (strict avatar_detector). -/
  | maskStrict
  /-- "检测到佩戴墨镜" (head_ocr_util.py). -/
  | glassSunUtil
  /-- "检测到佩戴墨镜（请摘除墨镜）" (avatar_detector.py). -/
  | glassSunAv
  /-- "检测到闭眼" (head_ocr_util.py). -/
  | eyeClosedUtil
  /-- "检测到闭眼（请保持眼睛睁开）" (avatar_detector.py). -/
  | eyeClosedAv
  /-- "检测到佩戴帽子（请摘除帽子）" (avatar_detector.py). -/
  | hatWorn
  /-- "{region}被遮挡(完整度{v}<{threshold})" entries joined by the occlusion
  check of head_ocr_util.py. -/
  | occluded (errs : List (Region × ℚ))
  /-- "检测到有效头像" (valid avatar). -/
  | validAvatar
deriving DecidableEq, Repr

/-! ### Per-attribute checks -/

/-- Core of `_check_face_rect` (identical in all variants) once the rect is
known to be present: positive and at least 20×20. -/
def checkRectDims (r : FaceRect) : Bool :=
  if r.width ≤ 0 ∨ r.height ≤ 0 then false
  else if r.width < 20 ∨ r.height < 20 then false
  else true

/-- `_check_head_pose_with_limits` (backend.py) on a present pose: the three
axes are tested in order pitch, yaw, roll against inclusive `[min, max]`
ranges, returning the first failing axis's message. -/
def checkHeadPoseWithLimits (hp : HeadPose)
    (pmin pmax ymin ymax rmin rmax : ℚ) : Option Msg :=
  if hp.pitch < pmin ∨ hp.pitch > pmax then
    some (.poseOut .pitch hp.pitch pmin pmax)
  else if hp.yaw < ymin ∨ hp.yaw > ymax then
    some (.poseOut .yaw hp.yaw ymin ymax)
  else if hp.roll < rmin ∨ hp.roll > rmax then
    some (.poseOut .roll hp.roll rmin rmax)
  else none

/-- Class constants `PITCH_MIN .. ROLL_MAX`, identical in head_ocr.py,
head_ocr_util.py, avatar_detector.py and backend.py. -/
def defaultCheckPose (hp : HeadPose) : Option Msg :=
  checkHeadPoseWithLimits hp (-10) 10 (-10) 10 (-20) 20

/-- The `mask_types` dictionary of head_ocr.py / backend.py / loose
avatar_detector (`{1: ..., 2: ..., 3: ...}`) with its `.get(t, '未知')`
default. -/
def maskTableHeadOcr (t : ℤ) : String :=
  if t = 1 then "有口罩但不遮脸"
  else if t = 2 then "有口罩遮下巴"
  else if t = 3 then "有口罩遮嘴"
  else "未知"

/-- The `mask_types` dictionary of head_ocr_util.py, which also names type 4,
with its `.get(t, '未知')` default. -/
def maskTableUtil (t : ℤ) : String :=
  if t = 1 then "有口罩但不遮脸"
  else if t = 2 then "有口罩遮下巴"
  else if t = 3 then "有口罩遮嘴"
  else if t = 4 then "正确佩戴口罩"
  else "未知"

/-- `HeadOCR._check_mask` (head_ocr.py, backend.py): types 0 and 4 allowed. -/
def headOcrCheckMask (m : Mask) : Option Msg :=
  if m.type = 0 ∨ m.type = 4 then none
  else some (.maskIncorrect (maskTableHeadOcr m.type))

/-- `HeadOCR._check_mask` (head_ocr_util.py): only type 0 allowed. -/
def utilCheckMask (m : Mask) : Option Msg :=
  if m.type = 0 then none
  else some (.maskDetected (maskTableUtil m.type))

/-- `AvatarDetector._check_mask`: strict mode allows only type 0 and rejects
with a fixed message; loose mode allows 0 and 4 and names the category. -/
def avCheckMask (strict : Bool) (m : Mask) : Option Msg :=
  if strict then
    if m.type = 0 then none else some .maskStrict
  else
    if m.type = 0 ∨ m.type = 4 then none
    else some (.maskIncorrect (maskTableHeadOcr m.type))

/-- `HeadOCR._check_glass` (head_ocr_util.py): type 2 (sunglasses) rejected. -/
def utilCheckGlass (g : Glass) : Option Msg :=
  if g.type = 2 then some .glassSunUtil else none

/-- `HeadOCR._check_eye` (head_ocr_util.py): `EyeOpen.Type == 1` is treated as
closed eyes. -/
def utilCheckEye (e : Eye) : Option Msg :=
  match e.eyeOpen with
  | none => none
  | some eo => if eo.type = 1 then some .eyeClosedUtil else none

/-- `AvatarDetector._check_eye`: `EyeOpen.Type == 0` with probability above 70
is treated as closed eyes (opposite polarity to head_ocr_util.py); then
`Glass.Type == 2` rejects as sunglasses. -/
def avCheckEye (e : Eye) : Option Msg :=
  match e.eyeOpen with
  | some eo =>
    if eo.type = 0 ∧ eo.probability > 70 then some .eyeClosedAv
    else
      match e.glass with
      | some g => if g.type = 2 then some .glassSunAv else none
      | none => none
  | none =>
    match e.glass with
    | some g => if g.type = 2 then some .glassSunAv else none
    | none => none

/-- `AvatarDetector._check_hat`: any `Style.Type ≠ 0` rejects. -/
def avCheckHat (h : Hat) : Option Msg :=
  match h.style with
  | some st => if st.type ≠ 0 then some .hatWorn else none
  | none => none

/-- `COMPLETENESS_THRESHOLD` of head_ocr_util.py. -/
def COMPLETENESS_THRESHOLD : ℚ := 50

/-- `HeadOCR._check_occlusion` (head_ocr_util.py): eye, mouth and nose
completeness each compared against the threshold; the sub-messages are joined
into a single validation error. -/
def utilCheckOcclusion (q : Quality) : Option Msg :=
  match q.completeness with
  | none => none
  | some c =>
    let errs :=
      (if c.eye < COMPLETENESS_THRESHOLD then [(Region.eye, c.eye)] else [])
      ++ (if c.mouth < COMPLETENESS_THRESHOLD then [(Region.mouth, c.mouth)] else [])
      ++ (if c.nose < COMPLETENESS_THRESHOLD then [(Region.nose, c.nose)] else [])
    if errs = [] then none else some (.occluded errs)

/-! ### Evaluation pipelines (the code after the `DetectFaceAttributes` call) -/

/-- Details payload of a head_ocr.py result (`details` key). -/
inductive HeadOcrDetails where
  | rect (r : FaceRect)
  | pose (hp : HeadPose)
  | mask (m : Mask)
  | attrs (f : FaceInfo)
deriving DecidableEq, Repr

/-- Result dictionary of `HeadOCR.check_avatar` (head_ocr.py): a single
`message` and an optional `details` payload about the selected face. -/
structure HeadOcrResult where
  hasValidAvatar : Bool
  faceCount : ℕ
  message : Msg
  details : Option HeadOcrDetails
deriving DecidableEq, Repr

/-- Body of `HeadOCR.check_avatar` (head_ocr.py) for the selected single face:
face rect, then pose, then mask, returning at the first failure.  A missing
rect fails `_check_face_rect` and then raises while building the `details`
dict; the outer handler turns that into the generic failure result. -/
def headOcrEvalFace (f : FaceInfo) : HeadOcrResult :=
  match f.rect with
  | none => ⟨false, 0, .detectFailed, none⟩
  | some r =>
    if checkRectDims r = false then ⟨false, 1, .badFaceRect, some (.rect r)⟩
    else
      match getPose f with
      | some hp =>
        match defaultCheckPose hp with
        | some m => ⟨false, 1, m, some (.pose hp)⟩
        | none => headOcrEvalMask f
      | none => headOcrEvalMask f
where
  /-- Mask step and the all-checks-passed return of head_ocr.py. -/
  headOcrEvalMask (f : FaceInfo) : HeadOcrResult :=
    match getMask f with
    | some mk =>
      match headOcrCheckMask mk with
      | some m => ⟨false, 1, m, some (.mask mk)⟩
      | none => ⟨true, 1, .validAvatar, some (.attrs f)⟩
    | none => ⟨true, 1, .validAvatar, some (.attrs f)⟩

/-- `HeadOCR.check_avatar` (head_ocr.py) after detection: no face, more than
one face, then the single-face checks (fail-fast). -/
def headOcrEval : List FaceInfo → HeadOcrResult
  | [] => ⟨false, 0, .noFace, none⟩
  | [f] => headOcrEvalFace f
  | fs => ⟨false, fs.length, .multiFaceSimple, none⟩

/-- The `message` field of a head_ocr_util.py result: early returns and the
success path carry one message, the accumulate path joins the collected
validation errors with " | ". -/
inductive UtilMessage where
  | single (m : Msg)
  | joined (ms : List Msg)
deriving DecidableEq, Repr

/-- The `attributes` dictionary head_ocr_util.py returns alongside verdicts
that reach the accumulate phase. -/
structure UtilAttrSummary where
  glass : Option ℤ
  mask : Option ℤ
  eyeOpen : Option ℤ
  headpose : Option HeadPose
  completeness : Option (Option Completeness)
deriving DecidableEq, Repr

/-- Builds the `attributes` dictionary of head_ocr_util.py. -/
def utilAttrSummary (f : FaceInfo) : UtilAttrSummary :=
  ⟨(getGlass f).map (·.type),
   (getMask f).map (·.type),
   ((getEye f).bind (·.eyeOpen)).map (·.type),
   getPose f,
   f.quality.map (·.completeness)⟩

/-- Result dictionary of `HeadOCR.check_avatar` (head_ocr_util.py). -/
structure UtilResult where
  hasValidAvatar : Bool
  faceCount : ℕ
  message : UtilMessage
  attributes : Option UtilAttrSummary
deriving DecidableEq, Repr

/-- Body of `HeadOCR.check_avatar` (head_ocr_util.py) for the selected single
face: face rect first, then all of pose, mask, glass, eye and occlusion are
evaluated and their failures collected in `validation_errors`, in that
order. -/
def utilEvalFace (f : FaceInfo) : UtilResult :=
  match f.rect with
  | none => ⟨false, 0, .single .detectFailed, none⟩
  | some r =>
    if checkRectDims r = false then ⟨false, 1, .single .badFaceRect, none⟩
    else
      let errs :=
        ((getPose f).bind defaultCheckPose).toList
        ++ ((getMask f).bind utilCheckMask).toList
        ++ ((getGlass f).bind utilCheckGlass).toList
        ++ ((getEye f).bind utilCheckEye).toList
        ++ (f.quality.bind utilCheckOcclusion).toList
      if errs = [] then ⟨true, 1, .single .validAvatar, some (utilAttrSummary f)⟩
      else ⟨false, 1, .joined errs, some (utilAttrSummary f)⟩

/-- `HeadOCR.check_avatar` (head_ocr_util.py) after detection: no face, more
than one face, then the single-face accumulate phase. -/
def utilEval : List FaceInfo → UtilResult
  | [] => ⟨false, 0, .single .noFace, none⟩
  | [f] => utilEvalFace f
  | fs => ⟨false, fs.length, .single (.multiFaceCount fs.length), none⟩

/-- Details payload of an avatar_detector.py result. -/
inductive AvDetails where
  | rect (r : FaceRect)
  | pose (hp : HeadPose)
  | mask (m : Mask)
  | hat (h : Hat)
  | eye (e : Eye)
  | full (f : FaceInfo)
deriving DecidableEq, Repr

/-- Result dictionary of `AvatarDetector.check_avatar`. -/
structure AvResult where
  hasValidAvatar : Bool
  faceCount : ℕ
  message : Msg
  details : Option AvDetails
deriving DecidableEq, Repr

/-- Body of `AvatarDetector.check_avatar` for the selected face: rect, pose,
mask; in strict mode additionally hat and eye — returning at the first
failure. -/
def avEvalFace (strict : Bool) (n : ℕ) (f : FaceInfo) : AvResult :=
  match f.rect with
  | none => ⟨false, 0, .detectFailed, none⟩
  | some r =>
    if checkRectDims r = false then ⟨false, n, .badFaceRect, some (.rect r)⟩
    else
      match getPose f with
      | some hp =>
        match defaultCheckPose hp with
        | some m => ⟨false, n, m, some (.pose hp)⟩
        | none => avEvalMask strict n f
      | none => avEvalMask strict n f
where
  /-- Mask step of avatar_detector.py. -/
  avEvalMask (strict : Bool) (n : ℕ) (f : FaceInfo) : AvResult :=
    match getMask f with
    | some mk =>
      match avCheckMask strict mk with
      | some m => ⟨false, n, m, some (.mask mk)⟩
      | none => avEvalStrictExtras strict n f
    | none => avEvalStrictExtras strict n f
  /-- Strict-mode hat and eye steps, then the all-passed return. -/
  avEvalStrictExtras (strict : Bool) (n : ℕ) (f : FaceInfo) : AvResult :=
    if strict then
      match (getHat f).bind (fun h => (avCheckHat h).map ((·, h))) with
      | some (m, h) => ⟨false, n, m, some (.hat h)⟩
      | none =>
        match (getEye f).bind (fun e => (avCheckEye e).map ((·, e))) with
        | some (m, e) => ⟨false, n, m, some (.eye e)⟩
        | none => ⟨true, n, .validAvatar, some (.full f)⟩
    else ⟨true, n, .validAvatar, some (.full f)⟩

/-- `AvatarDetector.check_avatar` after detection: no face, then (strict mode
only) the multi-face rejection, then the checks on `faces[0]`. -/
def avEval (strict : Bool) : List FaceInfo → AvResult
  | [] => ⟨false, 0, .noFace, none⟩
  | f :: rest =>
    if strict ∧ (f :: rest).length > 1 then
      ⟨false, (f :: rest).length, .multiFaceSimple, none⟩
    else avEvalFace strict (f :: rest).length f

/-! ### JSONL record store (`demo/jsonline.py`)

The file contents are modelled as the list of stored records.  A record is an
id field (possibly missing, as `item.get('id', 0)` allows) plus the rest of
the JSON object, abstracted as an opaque payload.  Python `sorted(data_list,
key=lambda x: x.get('id', 0))` is modelled by a stable insertion sort on the
same key. -/

/-- A stored JSON line: optional `id` plus the remaining fields. -/
structure DbRec where
  id : Option ℤ
  payload : String
deriving DecidableEq, Repr

/-- The sort key `x.get('id', 0)`. -/
def keyOf (r : DbRec) : ℤ :=
  r.id.getD 0

/-- Insert a record into a key-sorted list, after any records of equal key
(preserving encounter order, as Python's stable sort does). -/
def insertByKey (x : DbRec) : List DbRec → List DbRec
  | [] => [x]
  | y :: ys => if keyOf x < keyOf y then x :: y :: ys else y :: insertByKey x ys

/-- `sorted(data_list, key=lambda x: x.get('id', 0))`. -/
def sortById (l : List DbRec) : List DbRec :=
  l.foldr insertByKey []

/-- The list is in ascending order of the id key. -/
def isSortedById : List DbRec → Bool
  | [] => true
  | [_] => true
  | a :: b :: rest => decide (keyOf a ≤ keyOf b) && isSortedById (b :: rest)

/-- `JsonLineDB._write_all_lines`: the data reaches the file sorted by id
(the atomic tmp-file rename is a filesystem concern outside this model). -/
def writeAllLines (l : List DbRec) : List DbRec :=
  sortById l

/-- `JsonLineDB.read_all`: read every line, then sort by id. -/
def readAll (store : List DbRec) : List DbRec :=
  sortById store

/-- The replace-or-append loop of `JsonLineDB.upsert`: the first record whose
id equals the new record's id is replaced; otherwise the record is appended at
the end. -/
def replaceFirst (d : DbRec) : List DbRec → List DbRec
  | [] => [d]
  | x :: xs => if x.id = d.id then d :: xs else x :: replaceFirst d xs

/-- `JsonLineDB.upsert`: a record without the id field raises `ValueError`;
otherwise replace-or-append and write (which sorts). -/
def upsert (store : List DbRec) (d : DbRec) : Except String (List DbRec) :=
  match d.id with
  | none => .error "missing id field"
  | some _ => .ok (writeAllLines (replaceFirst d store))

/-- `JsonLineDB.delete`: drop every record whose id equals the given id; the
file is rewritten (sorted) only when something was removed. -/
def deleteById (store : List DbRec) (did : ℤ) : List DbRec :=
  let filtered := store.filter fun x => decide (x.id ≠ some did)
  if filtered.length < store.length then writeAllLines filtered else store

theorem isSortedById_cons2 (a b : DbRec) (l : List DbRec) :
    isSortedById (a :: b :: l) =
      (decide (keyOf a ≤ keyOf b) && isSortedById (b :: l)) := rfl

theorem isSortedById_cons_insert (x z : DbRec) (l : List DbRec)
    (hz : keyOf z ≤ keyOf x) (h : isSortedById (z :: l) = true) :
    isSortedById (z :: insertByKey x l) = true := by
  induction l generalizing z with
  | nil => simp [insertByKey, isSortedById, hz]
  | cons y ys ih =>
    rw [isSortedById_cons2, Bool.and_eq_true, decide_eq_true_eq] at h
    obtain ⟨h1, h2⟩ := h
    by_cases hxy : keyOf x < keyOf y
    · simp only [insertByKey, if_pos hxy]
      rw [isSortedById_cons2, isSortedById_cons2]
      simp [hz, le_of_lt hxy, h2]
    · simp only [insertByKey, if_neg hxy]
      rw [isSortedById_cons2, Bool.and_eq_true, decide_eq_true_eq]
      exact ⟨h1, ih y (le_of_not_lt hxy) h2⟩

theorem isSortedById_insert (x : DbRec) (l : List DbRec)
    (h : isSortedById l = true) : isSortedById (insertByKey x l) = true := by
  cases l with
  | nil => simp [insertByKey, isSortedById]
  | cons y ys =>
    by_cases hxy : keyOf x < keyOf y
    · simp only [insertByKey, if_pos hxy]
      rw [isSortedById_cons2]
      simp [le_of_lt hxy, h]
    · simp only [insertByKey, if_neg hxy]
      exact isSortedById_cons_insert x y ys (le_of_not_lt hxy) h

theorem isSortedById_sortById (l : List DbRec) :
    isSortedById (sortById l) = true := by
  induction l with
  | nil => rfl
  | cons x xs ih => exact isSortedById_insert x _ ih

/-! ## Claim theorems -/

/-- Claim C6: with zero detected faces, every variant returns a rejected
verdict whose reasons are exactly the single no-face message, with no details
and no further check contributing, in fail-fast (head_ocr, avatar_detector)
and accumulate (head_ocr_util) mode alike. -/
theorem no_face_terminal_single_reason :
    headOcrEval [] = ⟨false, 0, .noFace, none⟩ ∧
    utilEval [] = ⟨false, 0, .single .noFace, none⟩ ∧
    ∀ strict : Bool, avEval strict [] = ⟨false, 0, .noFace, none⟩ :=
  ⟨rfl, rfl, fun _ => rfl⟩

/-- Claim C7: with more faces than allowed (the configured maximum is the
constant 1 in every variant), evaluation rejects, the sole reason is the
face-count message, and no primary-face details/attributes are attached. -/
theorem multi_face_rejection_no_primary (fs : List FaceInfo)
    (h : fs.length > 1) :
    headOcrEval fs = ⟨false, fs.length, .multiFaceSimple, none⟩ ∧
    utilEval fs = ⟨false, fs.length, .single (.multiFaceCount fs.length), none⟩ ∧
    avEval true fs = ⟨false, fs.length, .multiFaceSimple, none⟩ := by
  match fs with
  | [] => simp at h
  | [f] => simp at h
  | f :: g :: rest =>
    refine ⟨rfl, rfl, ?_⟩
    have hlen : (f :: g :: rest).length > 1 := by simp
    simp [avEval, hlen]

/-- Witness for C7 at a concrete two-face outcome. -/
theorem multi_face_rejection_no_primary_witness :
    headOcrEval [⟨none, none, none⟩, ⟨none, none, none⟩] =
      ⟨false, 2, .multiFaceSimple, none⟩ ∧
    utilEval [⟨none, none, none⟩, ⟨none, none, none⟩] =
      ⟨false, 2, .single (.multiFaceCount 2), none⟩ ∧
    avEval true [⟨none, none, none⟩, ⟨none, none, none⟩] =
      ⟨false, 2, .multiFaceSimple, none⟩ :=
  multi_face_rejection_no_primary [⟨none, none, none⟩, ⟨none, none, none⟩]
    (by decide)

/-- Claim C9: the eye-closed checks of avatar_detector.py and
head_ocr_util.py use opposite enum polarity: an `EyeOpen.Type = 1` record is
valid for avatar_detector but closed-eyes for head_ocr_util, and an
`EyeOpen.Type = 0` record with probability above 70 is closed-eyes for
avatar_detector but valid for head_ocr_util. -/
theorem eye_polarity_divergence :
    (∃ e : Eye, avCheckEye e = none ∧ utilCheckEye e ≠ none) ∧
    (∃ e : Eye, avCheckEye e ≠ none ∧ utilCheckEye e = none) :=
  ⟨⟨⟨some ⟨1, 80⟩, none⟩, by decide⟩, ⟨⟨some ⟨0, 80⟩, none⟩, by decide⟩⟩

/-- Claim C2: the pose check uses inclusive `[min, max]` bounds on every axis
(value equal to a bound passes), and a value strictly outside its range is
rejected with the message naming that axis, the measured value and the
configured range (axes are examined in order pitch, yaw, roll). -/
theorem pose_range_inclusive_bounds (hp : HeadPose)
    (pmin pmax ymin ymax rmin rmax : ℚ) :
    (checkHeadPoseWithLimits hp pmin pmax ymin ymax rmin rmax = none ↔
      (pmin ≤ hp.pitch ∧ hp.pitch ≤ pmax ∧ ymin ≤ hp.yaw ∧ hp.yaw ≤ ymax ∧
        rmin ≤ hp.roll ∧ hp.roll ≤ rmax)) ∧
    ((hp.pitch < pmin ∨ pmax < hp.pitch) →
      checkHeadPoseWithLimits hp pmin pmax ymin ymax rmin rmax =
        some (.poseOut .pitch hp.pitch pmin pmax)) ∧
    (pmin ≤ hp.pitch → hp.pitch ≤ pmax → (hp.yaw < ymin ∨ ymax < hp.yaw) →
      checkHeadPoseWithLimits hp pmin pmax ymin ymax rmin rmax =
        some (.poseOut .yaw hp.yaw ymin ymax)) ∧
    (pmin ≤ hp.pitch → hp.pitch ≤ pmax → ymin ≤ hp.yaw → hp.yaw ≤ ymax →
      (hp.roll < rmin ∨ rmax < hp.roll) →
      checkHeadPoseWithLimits hp pmin pmax ymin ymax rmin rmax =
        some (.poseOut .roll hp.roll rmin rmax)) := by
  unfold checkHeadPoseWithLimits
  split_ifs with h1 h2 h3
  · refine ⟨?_, fun _ => rfl, ?_, ?_⟩
    · constructor
      · intro h; exact absurd h (by simp)
      · rintro ⟨a, b, -⟩
        rcases h1 with h | h
        · exact absurd a (not_le.mpr h)
        · exact absurd b (not_le.mpr h)
    · intro a b _
      rcases h1 with h | h
      · exact absurd a (not_le.mpr h)
      · exact absurd b (not_le.mpr h)
    · intro a b _ _ _
      rcases h1 with h | h
      · exact absurd a (not_le.mpr h)
      · exact absurd b (not_le.mpr h)
  · refine ⟨?_, fun hx => absurd hx h1, fun _ _ _ => rfl, ?_⟩
    · constructor
      · intro h; exact absurd h (by simp)
      · rintro ⟨-, -, a, b, -⟩
        rcases h2 with h | h
        · exact absurd a (not_le.mpr h)
        · exact absurd b (not_le.mpr h)
    · intro _ _ a b _
      rcases h2 with h | h
      · exact absurd a (not_le.mpr h)
      · exact absurd b (not_le.mpr h)
  · refine ⟨?_, fun hx => absurd hx h1, fun _ _ hx => absurd hx h2,
      fun _ _ _ _ _ => rfl⟩
    constructor
    · intro h; exact absurd h (by simp)
    · rintro ⟨-, -, -, -, a, b⟩
      rcases h3 with h | h
      · exact absurd a (not_le.mpr h)
      · exact absurd b (not_le.mpr h)
  · simp only [not_or, not_lt] at h1 h2 h3
    exact ⟨by simp [h1.1, h1.2, h2.1, h2.2, h3.1, h3.2],
      fun hx => absurd hx (by simp [not_or, not_lt, h1.1, h1.2]),
      fun _ _ hx => absurd hx (by simp [not_or, not_lt, h2.1, h2.2]),
      fun _ _ _ _ hx => absurd hx (by simp [not_or, not_lt, h3.1, h3.2])⟩

/-- Witness for C2: with the default limits, pitch exactly at the maximum is
accepted and pitch half a degree above it is rejected naming pitch, the value
and the range. -/
theorem pose_range_inclusive_bounds_witness :
    defaultCheckPose ⟨10, 0, 0⟩ = none ∧
    defaultCheckPose ⟨21 / 2, 0, 0⟩ =
      some (.poseOut .pitch (21 / 2) (-10) 10) :=
  ⟨(pose_range_inclusive_bounds ⟨10, 0, 0⟩ (-10) 10 (-10) 10 (-20) 20).1.mpr
      (by norm_num),
    (pose_range_inclusive_bounds ⟨21 / 2, 0, 0⟩ (-10) 10 (-10) 10 (-20) 20).2.1
      (Or.inr (by norm_num))⟩

/-- Claim C1: when the selected face passes the geometry check but violates
both the pose check and the (variant's) mask check, the fail-fast variant
(head_ocr.py) returns exactly the pose message, and the accumulate variant
(head_ocr_util.py) returns the pose message followed by the mask message at
the head of its joined reasons. -/
theorem pose_precedes_mask_in_order (f : FaceInfo) (r : FaceRect)
    (hp : HeadPose) (mk : Mask) (mp mmH mmU : Msg)
    (hr : f.rect = some r) (hrect : checkRectDims r = true)
    (hhp : getPose f = some hp) (hpm : defaultCheckPose hp = some mp)
    (hmk : getMask f = some mk)
    (hmH : headOcrCheckMask mk = some mmH)
    (hmU : utilCheckMask mk = some mmU) :
    headOcrEval [f] = ⟨false, 1, mp, some (.pose hp)⟩ ∧
    (utilEval [f]).hasValidAvatar = false ∧
    ∃ rest, (utilEval [f]).message = .joined (mp :: mmU :: rest) := by
  have h1 : headOcrEval [f] = headOcrEvalFace f := rfl
  have h2 : utilEval [f] = utilEvalFace f := rfl
  have hutil : utilEvalFace f =
      ⟨false, 1,
        .joined (mp :: mmU :: (((getGlass f).bind utilCheckGlass).toList
          ++ ((getEye f).bind utilCheckEye).toList
          ++ (f.quality.bind utilCheckOcclusion).toList)),
        some (utilAttrSummary f)⟩ := by
    unfold utilEvalFace
    rw [hr]
    simp [hrect, hhp, hpm, hmk, hmU]
  refine ⟨?_, ?_, ?_⟩
  · rw [h1]
    unfold headOcrEvalFace
    rw [hr]
    simp [hrect, hhp, hpm]
  · rw [h2, hutil]
  · exact ⟨_, by rw [h2, hutil]⟩

/-- Witness for C1: a face with pitch 50 (pose violation) and mask type 3
(mask violation for both variants). -/
theorem pose_precedes_mask_in_order_witness :
    headOcrEval [⟨some ⟨0, 0, 100, 100⟩,
        some ⟨some ⟨50, 0, 0⟩, some ⟨3, 90⟩, none, none⟩, none⟩] =
      ⟨false, 1, .poseOut .pitch 50 (-10) 10, some (.pose ⟨50, 0, 0⟩)⟩ ∧
    (utilEval [⟨some ⟨0, 0, 100, 100⟩,
        some ⟨some ⟨50, 0, 0⟩, some ⟨3, 90⟩, none, none⟩, none⟩]).hasValidAvatar
      = false ∧
    ∃ rest, (utilEval [⟨some ⟨0, 0, 100, 100⟩,
        some ⟨some ⟨50, 0, 0⟩, some ⟨3, 90⟩, none, none⟩, none⟩]).message =
      .joined (.poseOut .pitch 50 (-10) 10 :: .maskDetected "有口罩遮嘴" :: rest) :=
  pose_precedes_mask_in_order _ _ _ _ _ (.maskIncorrect "有口罩遮嘴") _
    rfl (by decide) rfl (by decide) rfl (by decide) (by decide)

theorem isAbsPath_false_of_isHttpUrl (s : String) (h : isHttpUrl s = true) :
    isAbsPath s = false := by
  unfold isHttpUrl at h
  unfold isAbsPath
  cases hsd : s.data with
  | nil =>
    rw [hsd] at h
    exact absurd h (by decide)
  | cons c t =>
    rw [hsd] at h
    rw [show "http://".data = ['h', 't', 't', 'p', ':', '/', '/'] from rfl,
      show "https://".data = ['h', 't', 't', 'p', 's', ':', '/', '/'] from rfl]
      at h
    simp only [leadsWith, Bool.or_eq_true, Bool.and_eq_true,
      decide_eq_true_eq] at h
    have hc : c = 'h' := by
      rcases h with ⟨hc, -⟩ | ⟨hc, -⟩ <;> exact hc.symm
    subst hc
    rw [show "/".data = ['/'] from rfl]
    simp [leadsWith, show (('/' : Char) = 'h') = False from by simp]

/-- Claim C3 counterexample: the avatar_detector classifier sends the
absolute path "/abs/path.jpg" to the direct-URL branch, not the local-file
(relative-path) branch. -/
theorem absolute_path_counterexample :
    avGetImageType "/abs/path.jpg" = .direct_url ∧
    AvImageType.direct_url ≠ AvImageType.relative_path := by
  exact ⟨by decide, by decide⟩

/-- Claim C3 (amended): in the head_ocr/head_ocr_util/backend classifier,
http(s) URLs that miss the search signature map to the direct-URL kind and
every non-URL string (absolute or relative) maps to the local-file kind; in
the avatar_detector classifier only relative paths map to the local-file
branch — an absolute path missing the search signature maps to the direct-URL
kind. -/
theorem classifier_coverage_amended (s : String) :
    (isHttpUrl s = false → getImageType s = .local_file) ∧
    (isHttpUrl s = true → isBaiduImageUrl s = false →
      getImageType s = .direct_url ∧ avGetImageType s = .direct_url) ∧
    (isHttpUrl s = false → isAbsPath s = false →
      avGetImageType s = .relative_path) ∧
    (isAbsPath s = true → isBaiduImageUrl s = false →
      avGetImageType s = .direct_url) := by
  refine ⟨?_, ?_, ?_, ?_⟩
  · intro h
    unfold getImageType isRelativePath
    cases habs : isAbsPath s <;> simp [h, habs]
  · intro h hb
    have habs := isAbsPath_false_of_isHttpUrl s h
    unfold getImageType avGetImageType isRelativePath
    simp [h, habs, hb]
  · intro h habs
    unfold avGetImageType isRelativePath
    simp [h, habs]
  · intro habs hb
    have hh : isHttpUrl s = false := by
      cases hht : isHttpUrl s
      · rfl
      · rw [isAbsPath_false_of_isHttpUrl s hht] at habs
        exact absurd habs (by simp)
    unfold avGetImageType isRelativePath
    simp [hh, habs, hb]

/-- Witness for C3 (amended) at the spec's three example inputs. -/
theorem classifier_coverage_amended_witness :
    getImageType "http://x/y.jpg" = .direct_url ∧
    getImageType "/abs/path.jpg" = .local_file ∧
    getImageType "rel/path.jpg" = .local_file ∧
    avGetImageType "rel/path.jpg" = .relative_path :=
  ⟨((classifier_coverage_amended "http://x/y.jpg").2.1 (by decide) (by decide)).1,
    (classifier_coverage_amended "/abs/path.jpg").1 (by decide),
    (classifier_coverage_amended "rel/path.jpg").1 (by decide),
    (classifier_coverage_amended "rel/path.jpg").2.2.1 (by decide) (by decide)⟩

/-- Claim C4 counterexample: a URL containing `image.baidu.com` with no
`objurl` carrier anywhere is still classified as an indirect search URL,
contradicting "IndirectSearchUrl only when ... AND the query string contains
the carrier parameter". -/
theorem baidu_without_carrier_counterexample :
    getImageType "https://image.baidu.com/search/detail" = .baidu_url ∧
    strContains "https://image.baidu.com/search/detail" "objurl" = false := by
  exact ⟨by decide, by decide⟩

/-- Claim C4 (amended): for http(s) URL candidates, classification yields the
indirect-search kind exactly when the whole string contains
`image.baidu.com`, or contains both `baidu.com` and `objurl` (plain substring
tests, no host/query parsing); otherwise the candidate is a direct URL.  In
particular a `baidu.com` URL lacking the carrier substring is a direct URL,
while an `image.baidu.com` URL is indirect even without the carrier. -/
theorem baidu_signature_characterization (s : String)
    (h : isHttpUrl s = true) :
    (getImageType s = .baidu_url ↔
      (strContains s "image.baidu.com" = true ∨
        (strContains s "baidu.com" = true ∧ strContains s "objurl" = true))) ∧
    (getImageType s = .direct_url ↔
      ¬(strContains s "image.baidu.com" = true ∨
        (strContains s "baidu.com" = true ∧ strContains s "objurl" = true))) := by
  have habs := isAbsPath_false_of_isHttpUrl s h
  have key : getImageType s =
      (if isBaiduImageUrl s then ImageSource.baidu_url else .direct_url) := by
    unfold getImageType isRelativePath
    simp [h, habs]
  rw [key]
  unfold isBaiduImageUrl
  cases h1 : strContains s "image.baidu.com" <;>
    cases h2 : strContains s "baidu.com" <;>
      cases h3 : strContains s "objurl" <;> simp

/-- Witness for C4 (amended): `baidu.com` plus carrier is indirect, `baidu.com`
without carrier is direct. -/
theorem baidu_signature_characterization_witness :
    getImageType "https://www.baidu.com/s?objurl=x" = .baidu_url ∧
    getImageType "https://www.baidu.com/s" = .direct_url :=
  ⟨(baidu_signature_characterization "https://www.baidu.com/s?objurl=x"
      (by decide)).1.mpr (Or.inr ⟨by decide, by decide⟩),
    (baidu_signature_characterization "https://www.baidu.com/s"
      (by decide)).2.mpr (by decide)⟩

/-- Claim C5: `_extract_image_url` is total (the embedding returns a value on
every string; the Python `try/except Exception: pass` guarantees no exception
escapes) and fully characterized: a baidu-marked URL with a parsed `objurl`
parameter yields that parameter's percent-decoded value; failing that, a
google-marked URL with a parsed `imgurl` parameter yields that parameter's
value; in every remaining case the original input string is returned
unchanged. -/
theorem extract_image_url_total_characterization (url : String) :
    (∀ v, baiduMarker url = true →
      getParamFirst (queryOf url.data) "objurl" = some v →
      extractImageUrl url = ⟨percentDecode v⟩) ∧
    ((baiduMarker url = false ∨
        getParamFirst (queryOf url.data) "objurl" = none) →
      (∀ w, googleMarker url = true →
        getParamFirst (queryOf url.data) "imgurl" = some w →
        extractImageUrl url = ⟨w⟩) ∧
      ((googleMarker url = false ∨
          getParamFirst (queryOf url.data) "imgurl" = none) →
        extractImageUrl url = url)) := by
  unfold extractImageUrl
  constructor
  · intro v hb hv
    simp [hb, hv]
  · intro hno
    constructor
    · intro w hg hw
      rcases hno with hb | hv
      · simp [hb, hg, hw]
      · cases hbm : baiduMarker url <;> simp [hbm, hv, hg, hw]
    · intro hng
      rcases hno with hb | hv <;> rcases hng with hg | hw
      · simp [hb, hg]
      · cases hgm : googleMarker url <;> simp [hb, hgm, hw]
      · cases hbm : baiduMarker url <;> simp [hbm, hv, hg]
      · cases hbm : baiduMarker url <;>
          cases hgm : googleMarker url <;> simp [hbm, hgm, hv, hw]

/-- Witness for C5: a double-encoded baidu carrier decodes (once by the query
parser, once by the extra unquote), and a carrier-less baidu detail URL falls
back to the original string. -/
theorem extract_image_url_total_characterization_witness :
    extractImageUrl
        "https://image.baidu.com/search/detail?objurl=https%253A%252F%252Fe.com%252Fa.jpg&x=1"
      = ⟨percentDecode "https%3A%2F%2Fe.com%2Fa.jpg".data⟩ ∧
    extractImageUrl "https://image.baidu.com/search/detail"
      = "https://image.baidu.com/search/detail" :=
  ⟨(extract_image_url_total_characterization
        "https://image.baidu.com/search/detail?objurl=https%253A%252F%252Fe.com%252Fa.jpg&x=1").1
      "https%3A%2F%2Fe.com%2Fa.jpg".data (by decide) (by decide),
    ((extract_image_url_total_characterization
        "https://image.baidu.com/search/detail").2
      (Or.inr (by decide))).2 (Or.inr (by decide))⟩

/-- Whether a mask rejection message names the detected category `t`: it must
be one of the category-interpolating format strings carrying the string that
the variant's `mask_types` table assigns to `t`. -/
def namesMaskCategory (msg : Msg) (t : ℤ) : Bool :=
  match msg with
  | .maskIncorrect cat => cat = maskTableHeadOcr t
  | .maskDetected cat => cat = maskTableUtil t
  | _ => false

/-- Claim C8 counterexample: in the strict avatar_detector mode, a worn mask
of category 2 (covers chin) is outside the allowed set yet the produced
reason is the fixed strict-mode message, which does not name the detected
category. -/
theorem strict_mask_reason_counterexample :
    avCheckMask true ⟨2, 90⟩ = some .maskStrict ∧
    namesMaskCategory .maskStrict 2 = false := by
  exact ⟨by decide, by decide⟩

/-- Claim C8 (amended): in every variant the mask check is silent exactly when
the detected type is in that variant's allowed set ({0, 4} for head_ocr /
backend / loose avatar_detector, {0} for head_ocr_util and strict
avatar_detector), and a type outside the allowed set always produces a
mask reason; that reason names the detected category in all variants except
strict avatar_detector mode, whose reason is a fixed message without the
category. -/
theorem mask_allowlist_characterization (m : Mask) :
    (headOcrCheckMask m = none ↔ (m.type = 0 ∨ m.type = 4)) ∧
    (utilCheckMask m = none ↔ m.type = 0) ∧
    (avCheckMask true m = none ↔ m.type = 0) ∧
    (avCheckMask false m = none ↔ (m.type = 0 ∨ m.type = 4)) ∧
    (¬(m.type = 0 ∨ m.type = 4) →
      headOcrCheckMask m = some (.maskIncorrect (maskTableHeadOcr m.type)) ∧
      avCheckMask false m = some (.maskIncorrect (maskTableHeadOcr m.type)) ∧
      namesMaskCategory (.maskIncorrect (maskTableHeadOcr m.type)) m.type
        = true) ∧
    (m.type ≠ 0 →
      utilCheckMask m = some (.maskDetected (maskTableUtil m.type)) ∧
      namesMaskCategory (.maskDetected (maskTableUtil m.type)) m.type = true ∧
      avCheckMask true m = some .maskStrict ∧
      namesMaskCategory .maskStrict m.type = false) := by
  unfold headOcrCheckMask utilCheckMask avCheckMask namesMaskCategory
  split_ifs with h1 h2 <;> simp_all

/-- Witness for C8 (amended) at mask type 3 (covers mouth). -/
theorem mask_allowlist_characterization_witness :
    headOcrCheckMask ⟨3, 90⟩ = some (.maskIncorrect "有口罩遮嘴") ∧
    utilCheckMask ⟨3, 90⟩ = some (.maskDetected "有口罩遮嘴") ∧
    namesMaskCategory (.maskDetected "有口罩遮嘴") 3 = true ∧
    avCheckMask true ⟨3, 90⟩ = some .maskStrict :=
  ⟨((mask_allowlist_characterization ⟨3, 90⟩).2.2.2.2.1 (by decide)).1,
    ((mask_allowlist_characterization ⟨3, 90⟩).2.2.2.2.2 (by decide)).1,
    ((mask_allowlist_characterization ⟨3, 90⟩).2.2.2.2.2 (by decide)).2.1,
    ((mask_allowlist_characterization ⟨3, 90⟩).2.2.2.2.2 (by decide)).2.2.1⟩

/-- Claim C10: the record store keeps its contents in ascending id order:
every successful `upsert` writes a sorted list, `delete` preserves
sortedness (it rewrites sorted, or leaves the file untouched when nothing
matched), and `read_all` always returns a sorted list. -/
theorem jsonline_sorted_invariant (store out : List DbRec) (d : DbRec)
    (i : ℤ) :
    (upsert store d = .ok out → isSortedById out = true) ∧
    (isSortedById store = true →
      isSortedById (deleteById store i) = true) ∧
    isSortedById (readAll store) = true := by
  refine ⟨?_, ?_, isSortedById_sortById store⟩
  · intro h
    unfold upsert at h
    cases hid : d.id with
    | none => rw [hid] at h; exact absurd h (by simp)
    | some j =>
      rw [hid] at h
      have : writeAllLines (replaceFirst d store) = out := by
        simpa using h
      rw [← this]
      exact isSortedById_sortById _
  · intro hs
    simp only [deleteById]
    split
    · exact isSortedById_sortById _
    · exact hs

/-- Witness for C10: an out-of-order store is re-sorted by an upsert, and a
delete on a sorted store keeps it sorted. -/
theorem jsonline_sorted_invariant_witness :
    isSortedById [⟨some 1, "b"⟩, ⟨some 2, "c"⟩, ⟨some 3, "a"⟩] = true ∧
    isSortedById (deleteById [⟨some 1, "b"⟩, ⟨some 3, "a"⟩] 3) = true :=
  ⟨(jsonline_sorted_invariant [⟨some 3, "a"⟩, ⟨some 1, "b"⟩]
        [⟨some 1, "b"⟩, ⟨some 2, "c"⟩, ⟨some 3, "a"⟩] ⟨some 2, "c"⟩ 0).1
      rfl,
    (jsonline_sorted_invariant [⟨some 1, "b"⟩, ⟨some 3, "a"⟩] [] ⟨none, ""⟩
        3).2.1 (by decide)⟩

end UserHeadOcr
